import Mathlib

/-
Verification of the query layer in `Assignment3.JS`: an Express application
exposing read-only lookups over three JSON datasets (artists, galleries,
paintings).  The shared pipeline `handleApiRequest` loads a file, parses it,
applies a route-specific filter closure and resolves the filtered value to a
200 / 404 / 500 response.

JavaScript values are embedded as the inductive `JVal`.  Numbers are modelled
as `Option Int` with `none` playing the role of `NaN` (the datasets and the
numeric route parameters are integral; fractional, exponent and hex literal
forms of JS number syntax are outside the behaviour exercised here).
JavaScript code that can throw (property access on null/undefined, calling
`.toLowerCase`/`.some`/`.filter` on a non-function receiver) is embedded in
`Except String`, the error being the thrown TypeError's message.
-/

namespace Assignment3

/-- A JavaScript value as it occurs in this program: the result of
`JSON.parse` extended with `undefined` (field misses, failed `find`). -/
inductive JVal where
  | null
  | undefined
  | bool (b : Bool)
  | num (n : Option Int)
  | str (s : String)
  | arr (xs : List JVal)
  | obj (fields : List (String × JVal))

/-- JavaScript truthiness. `undefined`, `null`, `false`, `0`, `NaN` and the
empty string are falsy; every object and array (even empty) is truthy. -/
def truthy : JVal → Bool
  | .null => false
  | .undefined => false
  | .bool b => b
  | .num (some n) => n != 0
  | .num none => false
  | .str s => !s.data.isEmpty
  | .arr _ => true
  | .obj _ => true

/-- `Array.isArray`. -/
def isArr : JVal → Bool
  | .arr _ => true
  | _ => false

/-- Test against the JS `undefined` value. -/
def isUndefined : JVal → Bool
  | .undefined => true
  | _ => false

/-- Test against the JS `null` value. -/
def isNull : JVal → Bool
  | .null => true
  | _ => false

/-- First binding of a field name in an object's field list (JS object keys
are unique, so first occurrence is the binding). -/
def fieldLookup (name : String) : List (String × JVal) → Option JVal
  | [] => none
  | (k, v) :: fs => if k == name then some v else fieldLookup name fs

/-- Property read `v[name]` on a receiver on which it cannot throw: objects
yield the field value or `undefined`; primitives and arrays have none of the
(data) fields this program reads, so they yield `undefined`. -/
def getField (v : JVal) (name : String) : JVal :=
  match v with
  | .obj fs =>
    match fieldLookup name fs with
    | some x => x
    | none => .undefined
  | _ => .undefined

/-- Property read `v[name]` as evaluated by JS: throws a TypeError when the
receiver is `null` or `undefined`, otherwise as `getField`. -/
def getFieldE (v : JVal) (name : String) : Except String JVal :=
  match v with
  | .null => .error ("TypeError: Cannot read properties of null (reading " ++ name ++ ")")
  | .undefined => .error ("TypeError: Cannot read properties of undefined (reading " ++ name ++ ")")
  | _ => .ok (getField v name)

/-- ASCII lower-casing of one character, as JS `toLowerCase` acts on the
ASCII range (the only range this program's data exercises). -/
def asciiLower (c : Char) : Char :=
  if 65 ≤ c.toNat ∧ c.toNat ≤ 90 then Char.ofNat (c.toNat + 32) else c

/-- JS `s.toLowerCase()` on ASCII data. -/
def strToLower (s : String) : String :=
  String.mk (s.data.map asciiLower)

/-- The whitespace characters relevant to JS `trim`/`parseInt` skipping
(space, tab, newline, carriage return, form feed, vertical tab). -/
def isWhiteChar (c : Char) : Bool :=
  c == ' ' || c == '\t' || c == '\n' || c == '\r' || c == '\x0c' || c == '\x0b'

/-- JS `s.trim()`: strip leading and trailing whitespace. -/
def strTrim (s : String) : String :=
  String.mk (((s.data.dropWhile isWhiteChar).reverse.dropWhile isWhiteChar).reverse)

/-- `v.toLowerCase()`: defined on strings, a thrown TypeError otherwise
(on `null`/`undefined` the property read itself throws; on other
non-strings the member is `undefined` and the call throws). -/
def toLowerCaseE (v : JVal) : Except String String :=
  match v with
  | .str s => .ok (strToLower s)
  | _ => .error "TypeError: toLowerCase is not a function"

/-- `pat` is a prefix of `s` (character lists). -/
def leadsWith : List Char → List Char → Bool
  | [], _ => true
  | _ :: _, [] => false
  | p :: ps, c :: cs => p == c && leadsWith ps cs

/-- `pat` occurs as a contiguous run inside `s` (character lists). -/
def hasSub (pat : List Char) : List Char → Bool
  | [] => leadsWith pat []
  | c :: rest => leadsWith pat (c :: rest) || hasSub pat rest

/-- JS `s.includes(pat)`: substring containment. -/
def strIncludes (s pat : String) : Bool :=
  hasSub pat.data s.data

/-- Numeric value of a run of decimal digits. -/
def digitsVal (cs : List Char) : Nat :=
  cs.foldl (fun a c => a * 10 + (c.toNat - 48)) 0

/-- Longest leading run of decimal digits, `none` when there is none:
the digit-consuming core of JS `parseInt`. -/
def takeDigitsVal (cs : List Char) : Option Nat :=
  let ds := cs.takeWhile Char.isDigit
  if ds.isEmpty then none else some (digitsVal ds)

/-- JS `parseInt(s, 10)`: skip leading whitespace, optional sign, then the
longest run of decimal digits; `NaN` (here `none`) when no digit follows.
Trailing garbage after the digits is ignored. -/
def jsParseInt (s : String) : Option Int :=
  match s.data.dropWhile isWhiteChar with
  | '-' :: rest => (takeDigitsVal rest).map (fun n => -(n : Int))
  | '+' :: rest => (takeDigitsVal rest).map (fun n => (n : Int))
  | cs => (takeDigitsVal cs).map (fun n => (n : Int))

/-- JS `Number(s)` on the integral fragment used by this program: the
whole trimmed string must be an optionally signed run of decimal digits
(the empty/blank string converts to 0); anything else is `NaN` (`none`). -/
def jsToNumber (s : String) : Option Int :=
  let t := (strTrim s).data
  match t with
  | [] => some 0
  | '-' :: rest =>
    if rest ≠ [] ∧ rest.all Char.isDigit then some (-(digitsVal rest : Int)) else none
  | '+' :: rest =>
    if rest ≠ [] ∧ rest.all Char.isDigit then some ((digitsVal rest : Int)) else none
  | cs =>
    if cs.all Char.isDigit then some ((digitsVal cs : Int)) else none

mutual
/-- JS `ToString` on the values this program feeds to `parseInt`
(arrays join their elements with commas, `null`/`undefined` elements
become empty, objects stringify to "[object Object]"). -/
def jsToStr : JVal → String
  | .null => "null"
  | .undefined => "undefined"
  | .bool true => "true"
  | .bool false => "false"
  | .num (some n) => toString n
  | .num none => "NaN"
  | .str s => s
  | .arr xs => jsToStrList xs
  | .obj _ => "[object Object]"

/-- Array elements joined with commas for `ToString`. -/
def jsToStrList : List JVal → String
  | [] => ""
  | v :: vs =>
    (match v with
     | .null => ""
     | .undefined => ""
     | w => jsToStr w)
    ++ (match vs with
        | [] => ""
        | _ :: _ => "," ++ jsToStrList vs)
end

/-- `parseInt(v, 10)` on an arbitrary value: JS first converts to string. -/
def jsParseIntJV (v : JVal) : Option Int :=
  jsParseInt (jsToStr v)

/-- Strict equality `v === n` between a stored value and a number
(possibly `NaN`): true only when both are non-`NaN` numbers with equal
value; `NaN` compares unequal to everything, and `===` never coerces. -/
def jsStrictEqNum (v : JVal) (n : Option Int) : Bool :=
  match v, n with
  | .num (some a), some b => a == b
  | _, _ => false

/-- `a <= b` on JS numbers: any comparison with `NaN` is false. -/
def numLe (a b : Option Int) : Bool :=
  match a, b with
  | some x, some y => decide (x ≤ y)
  | _, _ => false

/-- `a >= b` on JS numbers: any comparison with `NaN` is false. -/
def numGe (a b : Option Int) : Bool :=
  match a, b with
  | some x, some y => decide (x ≥ y)
  | _, _ => false

/-- The three response outcomes of the pipeline (spec §3 `Outcome`). -/
inductive Outcome where
  | Found (payload : JVal)
  | NotFound
  | Error (cause : String)

/-- The success test on line 38 of the source, verbatim:
`filteredData !== undefined && (Array.isArray(filteredData) ? filteredData.length > 0 : true)`. -/
def foundCheck (v : JVal) : Bool :=
  !(isUndefined v) &&
    (match v with
     | .arr xs => decide (xs.length > 0)
     | _ => true)

/-- The response resolver: classify a selector result as Found or NotFound. -/
def resolveOutcome (v : JVal) : Outcome :=
  if foundCheck v then .Found v else .NotFound

/-- An HTTP response as this program produces it: status code and body
(the content-type header is incidental). -/
structure Response where
  status : Nat
  body : String
deriving DecidableEq

/-- Two-space indentation prefix used by the pretty printer. -/
def spaces (n : Nat) : String :=
  String.mk (List.replicate n ' ')

/-- Escaping of `"` and backslash, character by character. -/
def jsonEscapeChars : List Char → List Char
  | [] => []
  | c :: cs =>
    (if c = '"' then ['\\', '"'] else if c = '\\' then ['\\', '\\'] else [c])
      ++ jsonEscapeChars cs

/-- Escaping of `"` and backslash inside JSON string literals. -/
def jsonEscape (s : String) : String :=
  String.mk (jsonEscapeChars s.data)

mutual
/-- `JSON.stringify(data, null, 2)` (source line 19): pretty printing with
two-space indentation. `undefined` and `NaN` print as `null` as JSON.stringify
renders them inside arrays; top-level `undefined` never reaches the printer
because the resolver classifies it NotFound first. -/
def jsonRender (indent : Nat) : JVal → String
  | .null => "null"
  | .undefined => "null"
  | .bool true => "true"
  | .bool false => "false"
  | .num (some n) => toString n
  | .num none => "null"
  | .str s => "\"" ++ jsonEscape s ++ "\""
  | .arr [] => "[]"
  | .arr (v :: vs) =>
    "[\n" ++ jsonRenderItems (indent + 2) (v :: vs) ++ "\n" ++ spaces indent ++ "]"
  | .obj [] => "\x7b\x7d"
  | .obj (f :: fs) =>
    "\x7b\n" ++ jsonRenderFields (indent + 2) (f :: fs) ++ "\n" ++ spaces indent ++ "\x7d"

/-- Array items, one per line. -/
def jsonRenderItems (indent : Nat) : List JVal → String
  | [] => ""
  | [v] => spaces indent ++ jsonRender indent v
  | v :: w :: vs =>
    spaces indent ++ jsonRender indent v ++ ",\n" ++ jsonRenderItems indent (w :: vs)

/-- Object fields, one per line. -/
def jsonRenderFields (indent : Nat) : List (String × JVal) → String
  | [] => ""
  | [(k, v)] => spaces indent ++ "\"" ++ jsonEscape k ++ "\": " ++ jsonRender indent v
  | (k, v) :: f :: fs =>
    spaces indent ++ "\"" ++ jsonEscape k ++ "\": " ++ jsonRender indent v ++ ",\n"
      ++ jsonRenderFields indent (f :: fs)
end

/-- `formatJsonResponse` from the source: `JSON.stringify(data, null, 2)`. -/
def formatJsonResponse (data : JVal) : String :=
  jsonRender 0 data

/-- The 404 body of line 51:
`res.status(404).json({ error: ... })` with the request URL interpolated. -/
def notFoundBody (url : String) : String :=
  "\x7b\"error\":\"No data found for the specified criteria in " ++ url ++ "\"\x7d"

/-- The load / execute / resolve pipeline of `handleApiRequest`: a failure of
loading or parsing, or an exception thrown by the selector, is the `Error`
outcome; otherwise the selector result is classified by the resolver. -/
def runPipeline (loadResult : Except String JVal) (sel : JVal → Except String JVal) : Outcome :=
  match loadResult with
  | .error e => .Error e
  | .ok jsonData =>
    match sel jsonData with
    | .error e => .Error e
    | .ok filteredData => resolveOutcome filteredData

/-- Rendering of an outcome into the HTTP response of lines 38-56:
200 with the pretty-printed payload, 404 with the descriptive JSON body,
or 500 with the constant text `Internal Server Error`. -/
def renderOutcome (url : String) : Outcome → Response
  | .Found payload => ⟨200, formatJsonResponse payload⟩
  | .NotFound => ⟨404, notFoundBody url⟩
  | .Error _ => ⟨500, "Internal Server Error"⟩

/-- `handleApiRequest` (source lines 23-57): the whole shared pipeline.
`loadResult` stands for `JSON.parse(await fs.readFile(...))` — `.error` when
the read or the parse throws, `.ok` with the parsed document otherwise. -/
def handleApiRequest (loadResult : Except String JVal)
    (filterFunction : JVal → Except String JVal) (url : String) : Response :=
  renderOutcome url (runPipeline loadResult filterFunction)

/-- `Array.prototype.filter` with a predicate that may throw: elements are
tested left to right and the first exception aborts the whole call. -/
def filterE (p : JVal → Except String Bool) : List JVal → Except String (List JVal)
  | [] => .ok []
  | v :: vs =>
    match p v with
    | .error e => .error e
    | .ok b =>
      match filterE p vs with
      | .error e => .error e
      | .ok rest => .ok (if b then v :: rest else rest)

/-- `Array.prototype.find` with a predicate that may throw: returns the first
element satisfying the predicate, `undefined` when none does. -/
def findE (p : JVal → Except String Bool) : List JVal → Except String JVal
  | [] => .ok .undefined
  | v :: vs =>
    match p v with
    | .error e => .error e
    | .ok true => .ok v
    | .ok false => findE p vs

/-- `Array.prototype.some` with a predicate that may throw. -/
def someE (p : JVal → Except String Bool) : List JVal → Except String Bool
  | [] => .ok false
  | v :: vs =>
    match p v with
    | .error e => .error e
    | .ok true => .ok true
    | .ok false => someE p vs

/-- The identity filter `(data) => data` used by `/api/artists`,
`/api/galleries` and `/api/paintings`. -/
def allRecordsFilter (data : JVal) : Except String JVal :=
  .ok data

/-- Per-artist test of `/api/artists/:country` (line 71):
`artist.Nationality.toLowerCase() === requestedNationality`. -/
def artistNationalityMatchE (requestedNationality : String) (artist : JVal) :
    Except String Bool :=
  match getFieldE artist "Nationality" with
  | .error e => .error e
  | .ok nat =>
    match toLowerCaseE nat with
    | .error e => .error e
    | .ok low => .ok (low == requestedNationality)

/-- The filter closure of `/api/artists/:country` (lines 69-72): lowercases
the country parameter, then filters on `Nationality` with no presence check. -/
def artistsByCountry (country : String) (data : JVal) : Except String JVal :=
  match data with
  | .arr xs =>
    match filterE (artistNationalityMatchE (strToLower country)) xs with
    | .error e => .error e
    | .ok res => .ok (.arr res)
  | _ => .error "TypeError: data.filter is not a function"

/-- Per-gallery test of `/api/galleries/:country` (line 89):
`gallery.GalleryCountry.toLowerCase() === requestedCountry`. -/
def galleryCountryMatchE (requestedCountry : String) (gallery : JVal) :
    Except String Bool :=
  match getFieldE gallery "GalleryCountry" with
  | .error e => .error e
  | .ok c =>
    match toLowerCaseE c with
    | .error e => .error e
    | .ok low => .ok (low == requestedCountry)

/-- The filter closure of `/api/galleries/:country` (lines 86-90). -/
def galleriesByCountry (country : String) (data : JVal) : Except String JVal :=
  match data with
  | .arr xs =>
    match filterE (galleryCountryMatchE (strToLower country)) xs with
    | .error e => .error e
    | .ok res => .ok (.arr res)
  | _ => .error "TypeError: data.filter is not a function"

/-- Per-painting test of `/api/painting/:paintingID` (line 109):
`painting.paintingID === requestedPaintingID`. -/
def paintingIdMatchE (requestedPaintingID : Option Int) (painting : JVal) :
    Except String Bool :=
  match getFieldE painting "paintingID" with
  | .error e => .error e
  | .ok v => .ok (jsStrictEqNum v requestedPaintingID)

/-- The filter closure of `/api/painting/:paintingID` (lines 105-112):
the id parameter converted with `Number(...)`, then `data.find(...)`
returning the first match or `undefined`. -/
def paintingById (paintingID : String) (data : JVal) : Except String JVal :=
  match data with
  | .arr xs => findE (paintingIdMatchE (jsToNumber paintingID)) xs
  | _ => .error "TypeError: data.find is not a function"

/-- Per-painting test of `/api/painting/gallery/:galleryID` (line 129):
`painting.gallery && painting.gallery.galleryID === requestedGalleryID`. -/
def galleryIdMatchE (requestedGalleryID : Option Int) (painting : JVal) :
    Except String Bool :=
  match getFieldE painting "gallery" with
  | .error e => .error e
  | .ok g =>
    if truthy g then
      match getFieldE g "galleryID" with
      | .error e => .error e
      | .ok v => .ok (jsStrictEqNum v requestedGalleryID)
    else .ok false

/-- The filter closure of `/api/painting/gallery/:galleryID` (lines 126-130):
the gallery id parameter converted with `parseInt(..., 10)`. -/
def paintingsByGallery (galleryID : String) (data : JVal) : Except String JVal :=
  match data with
  | .arr xs =>
    match filterE (galleryIdMatchE (jsParseInt galleryID)) xs with
    | .error e => .error e
    | .ok res => .ok (.arr res)
  | _ => .error "TypeError: data.filter is not a function"

/-- Per-painting test of `/api/painting/artist/:artistID` (line 145):
`painting.artist && painting.artist.artistID === requestedArtistID`. -/
def artistIdMatchE (requestedArtistID : Option Int) (painting : JVal) :
    Except String Bool :=
  match getFieldE painting "artist" with
  | .error e => .error e
  | .ok a =>
    if truthy a then
      match getFieldE a "artistID" with
      | .error e => .error e
      | .ok v => .ok (jsStrictEqNum v requestedArtistID)
    else .ok false

/-- The filter closure of `/api/painting/artist/:artistID` (lines 143-146). -/
def paintingsByArtist (artistID : String) (data : JVal) : Except String JVal :=
  match data with
  | .arr xs =>
    match filterE (artistIdMatchE (jsParseInt artistID)) xs with
    | .error e => .error e
    | .ok res => .ok (.arr res)
  | _ => .error "TypeError: data.filter is not a function"

/-- Per-painting test of `/api/painting/year/:min/:max` (lines 157-163):
`painting.yearOfWork && parseInt(painting.yearOfWork, 10) >= minYear &&
parseInt(painting.yearOfWork, 10) <= maxYear`. -/
def yearMatchE (minYear maxYear : Option Int) (painting : JVal) :
    Except String Bool :=
  match getFieldE painting "yearOfWork" with
  | .error e => .error e
  | .ok yow =>
    if truthy yow then
      .ok (numGe (jsParseIntJV yow) minYear && numLe (jsParseIntJV yow) maxYear)
    else .ok false

/-- The filter closure of `/api/painting/year/:min/:max` (lines 153-164):
both bounds converted with `parseInt(..., 10)`. -/
def paintingsByYear (minP maxP : String) (data : JVal) : Except String JVal :=
  match data with
  | .arr xs =>
    match filterE (yearMatchE (jsParseInt minP) (jsParseInt maxP)) xs with
    | .error e => .error e
    | .ok res => .ok (.arr res)
  | _ => .error "TypeError: data.filter is not a function"

/-- Per-painting test of `/api/painting/title/:text` (line 173):
`painting.title && painting.title.toLowerCase().includes(searchText)`. -/
def titleMatchE (searchText : String) (painting : JVal) : Except String Bool :=
  match getFieldE painting "title" with
  | .error e => .error e
  | .ok t =>
    if truthy t then
      match toLowerCaseE t with
      | .error e => .error e
      | .ok low => .ok (strIncludes low searchText)
    else .ok false

/-- The filter closure of `/api/painting/title/:text` (lines 171-174):
the text parameter lowercased once up front. -/
def paintingsByTitle (text : String) (data : JVal) : Except String JVal :=
  match data with
  | .arr xs =>
    match filterE (titleMatchE (strToLower text)) xs with
    | .error e => .error e
    | .ok res => .ok (.arr res)
  | _ => .error "TypeError: data.filter is not a function"

/-- Per-dominant-color test of `/api/painting/color/:name` (lines 190-195):
`const lowerCaseColorName = color.name ? color.name.toLowerCase().trim() : '';
return lowerCaseColorName.includes(searchColorName);`. -/
def dominantColorMatchE (searchColorName : String) (color : JVal) :
    Except String Bool :=
  match getFieldE color "name" with
  | .error e => .error e
  | .ok n =>
    if truthy n then
      match toLowerCaseE n with
      | .error e => .error e
      | .ok low => .ok (strIncludes (strTrim low) searchColorName)
    else .ok (strIncludes "" searchColorName)

/-- Per-painting test of `/api/painting/color/:name` (lines 184-196): the
`&&` presence chain over `details`, `details.annotation` and
`details.annotation.dominantColors`, then `.some` over the color entries. -/
def colorMatchE (searchColorName : String) (painting : JVal) :
    Except String Bool :=
  match getFieldE painting "details" with
  | .error e => .error e
  | .ok d =>
    if truthy d then
      match getFieldE d "annotation" with
      | .error e => .error e
      | .ok a =>
        if truthy a then
          match getFieldE a "dominantColors" with
          | .error e => .error e
          | .ok dc =>
            if truthy dc then
              match dc with
              | .arr colors => someE (dominantColorMatchE searchColorName) colors
              | _ => .error "TypeError: dominantColors.some is not a function"
            else .ok false
        else .ok false
    else .ok false

/-- The filter closure of `/api/painting/color/:name` (lines 181-197):
the name parameter lowercased once up front. -/
def paintingsByColor (name : String) (data : JVal) : Except String JVal :=
  match data with
  | .arr xs =>
    match filterE (colorMatchE (strToLower name)) xs with
    | .error e => .error e
    | .ok res => .ok (.arr res)
  | _ => .error "TypeError: data.filter is not a function"

/-! ### Claim-worded selection conditions

Pure (total) record conditions written from the specification's wording, to
be compared with the throwing closures embedded from the source. -/

/-- Year-range condition as the spec words it: `yearOfWork` present
(the field read does not give `undefined`) and
`min ≤ parseInt(yearOfWork) ≤ max` with inclusive endpoints. -/
def yearSpecCond (minYear maxYear : Option Int) (p : JVal) : Bool :=
  !(isUndefined (getField p "yearOfWork"))
    && numGe (jsParseIntJV (getField p "yearOfWork")) minYear
    && numLe (jsParseIntJV (getField p "yearOfWork")) maxYear

/-- Year-range condition as the code implements it: `yearOfWork` truthy
(present AND non-falsy) and within the inclusive bounds. -/
def yearCodeCond (minYear maxYear : Option Int) (p : JVal) : Bool :=
  truthy (getField p "yearOfWork")
    && (numGe (jsParseIntJV (getField p "yearOfWork")) minYear
        && numLe (jsParseIntJV (getField p "yearOfWork")) maxYear)

/-- Title condition as the spec words it: `title` present as a string and
containing the query as a case-insensitive substring. -/
def titleSpecCond (text : String) (p : JVal) : Bool :=
  match getField p "title" with
  | .str s => strIncludes (strToLower s) (strToLower text)
  | _ => false

/-- Key under which a dominant-color entry is matched, as the spec words it:
the entry's `name` lowercased and trimmed, the empty string when the entry
has no string `name`. -/
def colorNameKey (c : JVal) : String :=
  match getField c "name" with
  | .str s => strTrim (strToLower s)
  | _ => ""

/-- Color condition as the spec words it: `details.annotation.dominantColors`
present as a sequence, some entry of which matches the lowercased query. -/
def colorSpecCond (name : String) (p : JVal) : Bool :=
  match getField (getField (getField p "details") "annotation") "dominantColors" with
  | .arr colors => colors.any (fun c => strIncludes (colorNameKey c) (strToLower name))
  | _ => false

/-! ### Sample records used by concrete witnesses and counterexamples -/

/-- A painting with `yearOfWork` the string "1990". -/
def p1990 : JVal := .obj [("title", .str "Sample"), ("yearOfWork", .str "1990")]

/-- A painting whose `yearOfWork` is the number 0: present but falsy. -/
def pYear0 : JVal := .obj [("yearOfWork", .num (some 0))]

/-- A painting with a dominant color named "  Dark Red  ". -/
def pDarkRed : JVal :=
  .obj [("paintingID", .num (some 1)),
        ("details", .obj [("annotation", .obj [("dominantColors",
          .arr [.obj [("name", .str "  Dark Red  ")]])])])]

/-- A painting titled "Sunflowers". -/
def pSunflowers : JVal := .obj [("paintingID", .num (some 2)), ("title", .str "Sunflowers")]

/-- A painting hanging in gallery 3. -/
def pGallery3 : JVal := .obj [("gallery", .obj [("galleryID", .num (some 3))])]

/-- A painting by artist 3. -/
def pArtist3 : JVal := .obj [("artist", .obj [("artistID", .num (some 3))])]

/-- A small artists dataset with French and Spanish artists. -/
def sampleArtists : JVal :=
  .arr [.obj [("Name", .str "A"), ("Nationality", .str "France")],
        .obj [("Name", .str "B"), ("Nationality", .str "Spain")]]

/-- A small galleries dataset. -/
def sampleGalleries : JVal :=
  .arr [.obj [("GalleryName", .str "G1"), ("GalleryCountry", .str "France")],
        .obj [("GalleryName", .str "G2"), ("GalleryCountry", .str "Italy")]]

/-! ### Generic facts about the throwing array combinators -/

/-- A successful `filter` call with a predicate that agrees with a pure
predicate on every non-throwing evaluation returns exactly the pure filter. -/
theorem filterE_ok_eq (predE : JVal → Except String Bool) (pb : JVal → Bool)
    (hag : ∀ v b, predE v = .ok b → pb v = b) :
    ∀ xs res, filterE predE xs = .ok res → res = xs.filter pb := by
  intro xs
  induction xs with
  | nil =>
    intro res h
    simp only [filterE, Except.ok.injEq] at h
    simp [← h]
  | cons v vs ih =>
    intro res h
    cases hp : predE v with
    | error e => simp [filterE, hp] at h
    | ok b =>
      cases hr : filterE predE vs with
      | error e => simp [filterE, hp, hr] at h
      | ok rest =>
        simp only [filterE, hp, hr, Except.ok.injEq] at h
        rw [← h, List.filter_cons, hag v b hp, ih rest hr]

/-- A successful `find` call returns the first element on which the agreeing
pure predicate holds, or `undefined` when it holds nowhere. -/
theorem findE_ok_eq (predE : JVal → Except String Bool) (pb : JVal → Bool)
    (hag : ∀ v b, predE v = .ok b → pb v = b) :
    ∀ xs r, findE predE xs = .ok r →
      r = (match xs.find? pb with | some x => x | none => .undefined) := by
  intro xs
  induction xs with
  | nil =>
    intro r h
    simp only [findE, Except.ok.injEq] at h
    simp [← h, List.find?]
  | cons v vs ih =>
    intro r h
    cases hp : predE v with
    | error e => simp [findE, hp] at h
    | ok b =>
      have hpb := hag v b hp
      cases b with
      | true =>
        simp only [findE, hp, Except.ok.injEq] at h
        rw [List.find?_cons_of_pos _ hpb]
        exact h.symm
      | false =>
        simp only [findE, hp] at h
        rw [List.find?_cons_of_neg _ (by simp [hpb])]
        exact ih r h

/-- A successful `some` call computes exactly the pure `any` of the agreeing
pure predicate. -/
theorem someE_ok_eq (predE : JVal → Except String Bool) (pb : JVal → Bool)
    (hag : ∀ v b, predE v = .ok b → pb v = b) :
    ∀ xs b, someE predE xs = .ok b → xs.any pb = b := by
  intro xs
  induction xs with
  | nil =>
    intro b h
    simp only [someE, Except.ok.injEq] at h
    simp [← h]
  | cons v vs ih =>
    intro b h
    cases hp : predE v with
    | error e => simp [someE, hp] at h
    | ok bv =>
      have hpb := hag v bv hp
      cases bv with
      | true =>
        simp only [someE, hp, Except.ok.injEq] at h
        simp [List.any_cons, hpb, ← h]
      | false =>
        simp only [someE, hp] at h
        simp [List.any_cons, hpb, ih b h]

/-- `filter` throws as soon as any element makes the predicate throw. -/
theorem filterE_error_of_mem (predE : JVal → Except String Bool) (v : JVal) (e : String)
    (he : predE v = .error e) :
    ∀ xs, v ∈ xs → ∃ e', filterE predE xs = .error e' := by
  intro xs
  induction xs with
  | nil => intro hv; cases hv
  | cons w ws ih =>
    intro hv
    cases hp : predE w with
    | error e'' => exact ⟨e'', by simp [filterE, hp]⟩
    | ok b =>
      rcases List.mem_cons.mp hv with h1 | h2
      · rw [← h1] at hp; rw [hp] at he; cases he
      · rcases ih h2 with ⟨e', hE⟩
        refine ⟨e', ?_⟩
        simp [filterE, hp, hE]

/-- `filter` with a predicate returning false everywhere succeeds with `[]`. -/
theorem filterE_of_all_false (predE : JVal → Except String Bool) :
    ∀ xs, (∀ v ∈ xs, predE v = .ok false) → filterE predE xs = .ok [] := by
  intro xs
  induction xs with
  | nil => intro _; rfl
  | cons v vs ih =>
    intro hall
    have hv := hall v (List.mem_cons_self v vs)
    have hrest := ih (fun w hw => hall w (List.mem_cons_of_mem v hw))
    simp [filterE, hv, hrest]

/-- `find` with a predicate returning false everywhere succeeds with
`undefined`. -/
theorem findE_of_all_false (predE : JVal → Except String Bool) :
    ∀ xs, (∀ v ∈ xs, predE v = .ok false) → findE predE xs = .ok .undefined := by
  intro xs
  induction xs with
  | nil => intro _; rfl
  | cons v vs ih =>
    intro hall
    have hv := hall v (List.mem_cons_self v vs)
    have hrest := ih (fun w hw => hall w (List.mem_cons_of_mem v hw))
    simp [findE, hv, hrest]

/-! ### Small facts about the JS value primitives -/

/-- Property access succeeds on every receiver except `null`/`undefined`. -/
theorem getFieldE_ok' (v : JVal) (name : String) (hn : v ≠ .null) (hu : v ≠ .undefined) :
    getFieldE v name = .ok (getField v name) := by
  cases v with
  | null => exact absurd rfl hn
  | undefined => exact absurd rfl hu
  | bool b => rfl
  | num n => rfl
  | str s => rfl
  | arr xs => rfl
  | obj fs => rfl

/-- A truthy value is not `null`. -/
theorem ne_null_of_truthy {v : JVal} (h : truthy v = true) : v ≠ .null := by
  intro hv; rw [hv] at h; simp [truthy] at h

/-- A truthy value is not `undefined`. -/
theorem ne_undef_of_truthy {v : JVal} (h : truthy v = true) : v ≠ .undefined := by
  intro hv; rw [hv] at h; simp [truthy] at h

/-- Reading a field of a falsy value yields `undefined` (a falsy value is
never an object). -/
theorem getField_of_falsy (v : JVal) (name : String) (h : truthy v = false) :
    getField v name = .undefined := by
  cases v <;> first | rfl | simp [truthy] at h

/-- A nonempty string has a nonempty character list. -/
theorem data_ne_nil {s : String} (h : s ≠ "") : s.data ≠ [] := by
  cases s with
  | mk cs =>
    intro hd
    apply h
    have hcs : cs = [] := hd
    rw [hcs]

/-- The empty string contains no nonempty pattern. -/
theorem strIncludes_empty_left {pat : String} (h : pat.data ≠ []) :
    strIncludes "" pat = false := by
  unfold strIncludes
  cases hp : pat.data with
  | nil => exact absurd hp h
  | cons c cs => rfl

/-- Lowercasing preserves nonemptiness. -/
theorem strToLower_ne_empty {s : String} (h : s ≠ "") : (strToLower s).data ≠ [] := by
  show s.data.map asciiLower ≠ []
  simp
  exact data_ne_nil h

/-- A nonempty string is truthy. -/
theorem str_truthy_of_ne {s : String} (h : s ≠ "") : truthy (.str s) = true := by
  simp [truthy]
  exact data_ne_nil h

/-- Nothing is strictly equal to `NaN`. -/
theorem jsStrictEqNum_none (v : JVal) : jsStrictEqNum v none = false := by
  cases v with
  | num n => cases n <;> rfl
  | null => rfl
  | undefined => rfl
  | bool b => rfl
  | str s => rfl
  | arr xs => rfl
  | obj fs => rfl

/-- `>=` against `NaN` is false. -/
theorem numGe_none (a : Option Int) : numGe a none = false := by
  cases a <;> rfl

/-- `<=` against `NaN` is false. -/
theorem numLe_none (a : Option Int) : numLe a none = false := by
  cases a <;> rfl

/-! ### Agreement of the throwing selector predicates with pure conditions -/

/-- When the year predicate returns (does not throw), it computes the pure
condition `yearCodeCond`. -/
theorem yearMatchE_agree (mn mx : Option Int) (v : JVal) (b : Bool)
    (h : yearMatchE mn mx v = .ok b) : yearCodeCond mn mx v = b := by
  by_cases hn : v = .null
  · rw [hn] at h; simp [yearMatchE, getFieldE] at h
  by_cases hu : v = .undefined
  · rw [hu] at h; simp [yearMatchE, getFieldE] at h
  unfold yearMatchE at h
  rw [getFieldE_ok' v _ hn hu] at h
  simp only [] at h
  unfold yearCodeCond
  cases htr : truthy (getField v "yearOfWork") with
  | false => rw [htr] at h; simp at h; simp [← h]
  | true => rw [htr] at h; simp at h; simp [← h]

/-- When the title predicate returns, it computes the spec's title condition
(for a nonempty query, which every route parameter is). -/
theorem titleMatchE_agree (text : String) (hne : text ≠ "") (v : JVal) (b : Bool)
    (h : titleMatchE (strToLower text) v = .ok b) : titleSpecCond text v = b := by
  by_cases hn : v = .null
  · rw [hn] at h; simp [titleMatchE, getFieldE] at h
  by_cases hu : v = .undefined
  · rw [hu] at h; simp [titleMatchE, getFieldE] at h
  unfold titleMatchE at h
  rw [getFieldE_ok' v _ hn hu] at h
  simp only [] at h
  unfold titleSpecCond
  cases ht : getField v "title" with
  | str s =>
    rw [ht] at h
    show strIncludes (strToLower s) (strToLower text) = b
    by_cases hs : s = ""
    · subst hs
      simp [truthy] at h
      subst h
      exact strIncludes_empty_left (strToLower_ne_empty hne)
    · rw [str_truthy_of_ne hs] at h
      simp [toLowerCaseE] at h
      exact h
  | null => rw [ht] at h; simp [truthy] at h; subst h; rfl
  | undefined => rw [ht] at h; simp [truthy] at h; subst h; rfl
  | bool c =>
    rw [ht] at h
    cases c with
    | false => simp [truthy] at h; subst h; rfl
    | true => simp [truthy, toLowerCaseE] at h
  | num n =>
    rw [ht] at h
    match n with
    | none => simp [truthy] at h; subst h; rfl
    | some k =>
      by_cases hk : k = 0
      · subst hk; simp [truthy] at h; subst h; rfl
      · simp [truthy, hk, toLowerCaseE] at h
  | arr xs => rw [ht] at h; simp [truthy, toLowerCaseE] at h
  | obj fs => rw [ht] at h; simp [truthy, toLowerCaseE] at h

/-- When the id predicate returns, it computes strict numeric equality of the
`paintingID` field with the requested number. -/
theorem paintingIdMatchE_agree (req : Option Int) (v : JVal) (b : Bool)
    (h : paintingIdMatchE req v = .ok b) :
    jsStrictEqNum (getField v "paintingID") req = b := by
  by_cases hn : v = .null
  · rw [hn] at h; simp [paintingIdMatchE, getFieldE] at h
  by_cases hu : v = .undefined
  · rw [hu] at h; simp [paintingIdMatchE, getFieldE] at h
  unfold paintingIdMatchE at h
  rw [getFieldE_ok' v _ hn hu] at h
  simp only [Except.ok.injEq] at h
  exact h

/-- When the per-entry color predicate returns, it computes the spec's
trimmed-lowercased-name containment test. -/
theorem dominantColorMatchE_agree (s : String) (c : JVal) (bc : Bool)
    (h : dominantColorMatchE s c = .ok bc) :
    strIncludes (colorNameKey c) s = bc := by
  by_cases hn : c = .null
  · rw [hn] at h; simp [dominantColorMatchE, getFieldE] at h
  by_cases hu : c = .undefined
  · rw [hu] at h; simp [dominantColorMatchE, getFieldE] at h
  unfold dominantColorMatchE at h
  rw [getFieldE_ok' c _ hn hu] at h
  simp only [] at h
  unfold colorNameKey
  cases ht : getField c "name" with
  | str t =>
    rw [ht] at h
    show strIncludes (strTrim (strToLower t)) s = bc
    by_cases hs : t = ""
    · subst hs
      simp [truthy] at h
      exact h
    · rw [str_truthy_of_ne hs] at h
      simp [toLowerCaseE] at h
      exact h
  | null => rw [ht] at h; simp [truthy] at h; exact h
  | undefined => rw [ht] at h; simp [truthy] at h; exact h
  | bool cb =>
    rw [ht] at h
    cases cb with
    | false => simp [truthy] at h; exact h
    | true => simp [truthy, toLowerCaseE] at h
  | num n =>
    rw [ht] at h
    match n with
    | none => simp [truthy] at h; exact h
    | some k =>
      by_cases hk : k = 0
      · subst hk; simp [truthy] at h; exact h
      · simp [truthy, hk, toLowerCaseE] at h
  | arr xs => rw [ht] at h; simp [truthy, toLowerCaseE] at h
  | obj fs => rw [ht] at h; simp [truthy, toLowerCaseE] at h

/-- When the per-painting color predicate returns, it computes the spec's
color condition. -/
theorem colorMatchE_agree (name : String) (v : JVal) (b : Bool)
    (h : colorMatchE (strToLower name) v = .ok b) : colorSpecCond name v = b := by
  by_cases hn : v = .null
  · rw [hn] at h; simp [colorMatchE, getFieldE] at h
  by_cases hu : v = .undefined
  · rw [hu] at h; simp [colorMatchE, getFieldE] at h
  unfold colorMatchE at h
  rw [getFieldE_ok' v _ hn hu] at h
  simp only [] at h
  unfold colorSpecCond
  cases htrd : truthy (getField v "details") with
  | false =>
    rw [htrd] at h
    simp at h
    subst h
    rw [getField_of_falsy _ _ htrd]
    rfl
  | true =>
    rw [htrd] at h
    rw [getFieldE_ok' _ _ (ne_null_of_truthy htrd) (ne_undef_of_truthy htrd)] at h
    simp only [] at h
    cases htra : truthy (getField (getField v "details") "annotation") with
    | false =>
      rw [htra] at h
      simp at h
      subst h
      rw [getField_of_falsy _ _ htra]
    | true =>
      rw [htra] at h
      rw [getFieldE_ok' _ _ (ne_null_of_truthy htra) (ne_undef_of_truthy htra)] at h
      simp only [] at h
      cases htrc : truthy (getField (getField (getField v "details") "annotation") "dominantColors") with
      | false =>
        rw [htrc] at h
        simp at h
        subst h
        cases hdc : getField (getField (getField v "details") "annotation") "dominantColors" with
        | arr colors => rw [hdc] at htrc; simp [truthy] at htrc
        | null => rfl
        | undefined => rfl
        | bool cb => rfl
        | num n => rfl
        | str t => rfl
        | obj fs => rfl
      | true =>
        rw [htrc] at h
        cases hdc : getField (getField (getField v "details") "annotation") "dominantColors" with
        | arr colors =>
          rw [hdc] at h
          exact someE_ok_eq _ _ (fun c bc hc => dominantColorMatchE_agree (strToLower name) c bc hc) colors b h
        | null => rw [hdc] at h; simp at h
        | undefined => rw [hdc] at h; simp at h
        | bool cb => rw [hdc] at h; simp at h
        | num n => rw [hdc] at h; simp at h
        | str t => rw [hdc] at h; simp at h
        | obj fs => rw [hdc] at h; simp at h

/-! ### Pipeline-level helper lemmas -/

/-- Unfolding of the pipeline on a successful load. -/
theorem runPipeline_ok (d : JVal) (sel : JVal → Except String JVal) :
    runPipeline (.ok d) sel =
      match sel d with
      | .error e => .Error e
      | .ok fd => resolveOutcome fd := rfl

/-- A selector that throws produces the constant 500 response. -/
theorem handle_sel_error (d : JVal) (sel : JVal → Except String JVal) (url e : String)
    (h : sel d = .error e) :
    handleApiRequest (.ok d) sel url = ⟨500, "Internal Server Error"⟩ := by
  unfold handleApiRequest
  rw [runPipeline_ok, h]
  rfl

/-- Unfolding of the artists-by-country selector on an array dataset. -/
theorem artistsByCountry_unfold (c : String) (xs : List JVal) :
    artistsByCountry c (.arr xs) =
      match filterE (artistNationalityMatchE (strToLower c)) xs with
      | .error e => .error e
      | .ok res => .ok (.arr res) := rfl

/-- Unfolding of the galleries-by-country selector on an array dataset. -/
theorem galleriesByCountry_unfold (c : String) (xs : List JVal) :
    galleriesByCountry c (.arr xs) =
      match filterE (galleryCountryMatchE (strToLower c)) xs with
      | .error e => .error e
      | .ok res => .ok (.arr res) := rfl

/-- Unfolding of the year-range selector on an array dataset. -/
theorem paintingsByYear_unfold (mnS mxS : String) (xs : List JVal) :
    paintingsByYear mnS mxS (.arr xs) =
      match filterE (yearMatchE (jsParseInt mnS) (jsParseInt mxS)) xs with
      | .error e => .error e
      | .ok res => .ok (.arr res) := rfl

/-- Unfolding of the title selector on an array dataset. -/
theorem paintingsByTitle_unfold (text : String) (xs : List JVal) :
    paintingsByTitle text (.arr xs) =
      match filterE (titleMatchE (strToLower text)) xs with
      | .error e => .error e
      | .ok res => .ok (.arr res) := rfl

/-- Unfolding of the color selector on an array dataset. -/
theorem paintingsByColor_unfold (name : String) (xs : List JVal) :
    paintingsByColor name (.arr xs) =
      match filterE (colorMatchE (strToLower name)) xs with
      | .error e => .error e
      | .ok res => .ok (.arr res) := rfl

/-- A selector that returns hands its result to the resolver. -/
theorem handle_sel_ok (d : JVal) (sel : JVal → Except String JVal) (url : String) (r : JVal)
    (h : sel d = .ok r) :
    handleApiRequest (.ok d) sel url = renderOutcome url (resolveOutcome r) := by
  unfold handleApiRequest
  rw [runPipeline_ok, h]

/-- Decoding of the Boolean `isNull` test. -/
theorem ne_null_of_isNull_false {v : JVal} (h : isNull v = false) : v ≠ .null := by
  intro hv; rw [hv] at h; simp [isNull] at h

/-- Decoding of the Boolean `isUndefined` test. -/
theorem ne_undef_of_isUndefined_false {v : JVal} (h : isUndefined v = false) : v ≠ .undefined := by
  intro hv; rw [hv] at h; simp [isUndefined] at h

/-- The id predicate returns false on every record when the requested id is
`NaN`. -/
theorem paintingIdMatchE_nan (v : JVal) (hn : v ≠ .null) (hu : v ≠ .undefined) :
    paintingIdMatchE none v = .ok false := by
  unfold paintingIdMatchE
  rw [getFieldE_ok' v _ hn hu]
  simp only []
  rw [jsStrictEqNum_none]

/-- The year predicate returns false on every record when either bound is
`NaN`. -/
theorem yearMatchE_nan (mn mx : Option Int) (hnan : mn = none ∨ mx = none)
    (v : JVal) (hn : v ≠ .null) (hu : v ≠ .undefined) :
    yearMatchE mn mx v = .ok false := by
  unfold yearMatchE
  rw [getFieldE_ok' v _ hn hu]
  simp only []
  cases htr : truthy (getField v "yearOfWork") with
  | false => simp [htr]
  | true =>
    rcases hnan with h1 | h1
    · subst h1; simp [htr, numGe_none]
    · subst h1; simp [htr, numLe_none]

/-- A request to the painting-by-id route whose id parameter converts to
`NaN` yields the 404 response on any dataset of non-null records. -/
theorem paintingById_nan_notFound (pid : String) (hnan : jsToNumber pid = none)
    (ps : List JVal) (url : String)
    (hok : ∀ p ∈ ps, isNull p = false ∧ isUndefined p = false) :
    handleApiRequest (.ok (.arr ps)) (paintingById pid) url = ⟨404, notFoundBody url⟩ := by
  have hfind : findE (paintingIdMatchE (jsToNumber pid)) ps = .ok .undefined := by
    rw [hnan]
    exact findE_of_all_false _ ps
      (fun v hv => paintingIdMatchE_nan v
        (ne_null_of_isNull_false (hok v hv).1) (ne_undef_of_isUndefined_false (hok v hv).2))
  have hsel : paintingById pid (.arr ps) = .ok .undefined := hfind
  rw [handle_sel_ok _ _ _ _ hsel]
  rfl

/-- A request to the year-range route with a bound converting to `NaN`
yields the 404 response on any dataset of non-null records. -/
theorem paintingsByYear_nan_notFound (mnS mxS : String)
    (hnan : jsParseInt mnS = none ∨ jsParseInt mxS = none)
    (ps : List JVal) (url : String)
    (hok : ∀ p ∈ ps, isNull p = false ∧ isUndefined p = false) :
    handleApiRequest (.ok (.arr ps)) (paintingsByYear mnS mxS) url
      = ⟨404, notFoundBody url⟩ := by
  have hfil : filterE (yearMatchE (jsParseInt mnS) (jsParseInt mxS)) ps = .ok [] :=
    filterE_of_all_false _ ps
      (fun v hv => yearMatchE_nan _ _ hnan v
        (ne_null_of_isNull_false (hok v hv).1) (ne_undef_of_isUndefined_false (hok v hv).2))
  have hsel : paintingsByYear mnS mxS (.arr ps) = .ok (.arr []) := by
    rw [paintingsByYear_unfold, hfil]
  rw [handle_sel_ok _ _ _ _ hsel]
  rfl

/-- The artist-nationality predicate throws on a record whose `Nationality`
is missing or `null` (and on `null`/`undefined` records themselves). -/
theorem artistNationalityMatchE_error (req : String) (a : JVal)
    (hbad : getField a "Nationality" = .undefined ∨ getField a "Nationality" = .null) :
    ∃ e, artistNationalityMatchE req a = .error e := by
  by_cases hn : a = .null
  · exact ⟨_, by rw [hn]; rfl⟩
  by_cases hu : a = .undefined
  · exact ⟨_, by rw [hu]; rfl⟩
  refine ⟨"TypeError: toLowerCase is not a function", ?_⟩
  unfold artistNationalityMatchE
  rw [getFieldE_ok' a _ hn hu]
  rcases hbad with hb | hb <;> rw [hb] <;> rfl

/-- The gallery-country predicate throws on a record whose `GalleryCountry`
is missing or `null`. -/
theorem galleryCountryMatchE_error (req : String) (g : JVal)
    (hbad : getField g "GalleryCountry" = .undefined ∨ getField g "GalleryCountry" = .null) :
    ∃ e, galleryCountryMatchE req g = .error e := by
  by_cases hn : g = .null
  · exact ⟨_, by rw [hn]; rfl⟩
  by_cases hu : g = .undefined
  · exact ⟨_, by rw [hu]; rfl⟩
  refine ⟨"TypeError: toLowerCase is not a function", ?_⟩
  unfold galleryCountryMatchE
  rw [getFieldE_ok' g _ hn hu]
  rcases hbad with hb | hb <;> rw [hb] <;> rfl

/-! ### Claims -/

/-- C1 (counterexample): the claim states the resolver maps a non-array
result to Found iff it is neither `undefined` nor `null`, so a `null` result
would have to be NotFound; but the source tests only `!== undefined`, so a
`null` selector result (e.g. the identity selector over a dataset file whose
document is `null`) is classified Found and served as a 200 response with
body "null". -/
theorem claim_c1_counterexample :
    resolveOutcome .null = .Found .null
      ∧ handleApiRequest (.ok .null) allRecordsFilter "/api/artists" = ⟨200, "null"⟩ :=
  ⟨rfl, rfl⟩

/-- C1 (amended): the resolver classifies an array result Found iff its
length is positive; a non-array result is Found iff it is not `undefined`
(`null` included among Found); in particular every defined scalar result,
even a falsy one such as the empty string, is Found. -/
theorem claim_c1_amended :
    (∀ xs : List JVal,
      resolveOutcome (.arr xs) = if 0 < xs.length then .Found (.arr xs) else .NotFound)
    ∧ resolveOutcome .undefined = .NotFound
    ∧ (∀ v, isArr v = false → isUndefined v = false → resolveOutcome v = .Found v) := by
  refine ⟨?_, rfl, ?_⟩
  · intro xs
    cases xs with
    | nil => rfl
    | cons x xs' => simp [resolveOutcome, foundCheck, isUndefined]
  · intro v hna hnu
    cases v with
    | arr xs => simp [isArr] at hna
    | undefined => simp [isUndefined] at hnu
    | null => rfl
    | bool b => rfl
    | num n => rfl
    | str s => rfl
    | obj fs => rfl

/-- C1 (witness): the empty string is a defined but falsy scalar result and
is classified Found. -/
theorem claim_c1_witness :
    isArr (.str "") = false ∧ isUndefined (.str "") = false
      ∧ resolveOutcome (.str "") = .Found (.str "") :=
  ⟨rfl, rfl, claim_c1_amended.2.2 (.str "") rfl rfl⟩

/-- C2: a load/parse failure, and any exception thrown by a selector, is
collapsed by the pipeline into the 500 response with the constant body
`Internal Server Error`; the cause string never influences the response. -/
theorem claim_c2 :
    (∀ e sel url, handleApiRequest (.error e) sel url = ⟨500, "Internal Server Error"⟩)
    ∧ (∀ d sel url e, sel d = .error e →
        handleApiRequest (.ok d) sel url = ⟨500, "Internal Server Error"⟩) :=
  ⟨fun _ _ _ => rfl, fun d sel url e h => handle_sel_error d sel url e h⟩

/-- C2 (witness): a dataset containing a `null` record makes the
artists-by-country selector throw, and the request is answered 500. -/
theorem claim_c2_witness :
    artistsByCountry "france" (.arr [JVal.null])
        = .error "TypeError: Cannot read properties of null (reading Nationality)"
      ∧ handleApiRequest (.ok (.arr [JVal.null])) (artistsByCountry "france")
          "/api/artists/france" = ⟨500, "Internal Server Error"⟩ :=
  ⟨rfl, claim_c2.2 (.arr [JVal.null]) (artistsByCountry "france") "/api/artists/france" _ rfl⟩

/-- C3: a non-numeric id parameter converts to `NaN`, which strictly equals
no `paintingID`, and a non-numeric year bound parses to `NaN`, which
satisfies no comparison; on any dataset of non-null records both requests
yield the 404 response — never a 500 caused by the parameter alone. -/
theorem claim_c3 :
    (∀ pid ps url, jsToNumber pid = none →
      (∀ p ∈ ps, isNull p = false ∧ isUndefined p = false) →
      handleApiRequest (.ok (.arr ps)) (paintingById pid) url = ⟨404, notFoundBody url⟩)
    ∧ (∀ mnS mxS ps url, (jsParseInt mnS = none ∨ jsParseInt mxS = none) →
      (∀ p ∈ ps, isNull p = false ∧ isUndefined p = false) →
      handleApiRequest (.ok (.arr ps)) (paintingsByYear mnS mxS) url
        = ⟨404, notFoundBody url⟩) :=
  ⟨fun pid ps url hnan hok => paintingById_nan_notFound pid hnan ps url hok,
   fun mnS mxS ps url hnan hok => paintingsByYear_nan_notFound mnS mxS hnan ps url hok⟩

/-- C3 (witness): the id "abc" and the year bound "abc" yield 404 on a
concrete dataset. -/
theorem claim_c3_witness :
    jsToNumber "abc" = none
      ∧ handleApiRequest (.ok (.arr [pSunflowers])) (paintingById "abc")
          "/api/painting/abc" = ⟨404, notFoundBody "/api/painting/abc"⟩
      ∧ handleApiRequest (.ok (.arr [p1990])) (paintingsByYear "abc" "2000")
          "/api/painting/year/abc/2000" = ⟨404, notFoundBody "/api/painting/year/abc/2000"⟩ :=
  ⟨rfl,
   claim_c3.1 "abc" [pSunflowers] "/api/painting/abc" rfl (by decide),
   claim_c3.2 "abc" "2000" [p1990] "/api/painting/year/abc/2000" (Or.inl rfl) (by decide)⟩

/-- C4 (counterexample): the claim includes every painting whose
`yearOfWork` is PRESENT and within bounds, but the code tests truthiness:
a painting with `yearOfWork: 0` (present, in bounds for min=0, max=0,
satisfying the spec condition) is excluded by the selector. -/
theorem claim_c4_counterexample :
    yearSpecCond (jsParseInt "0") (jsParseInt "0") pYear0 = true
      ∧ paintingsByYear "0" "0" (.arr [pYear0]) = .ok (.arr []) :=
  ⟨rfl, rfl⟩

/-- C4 (amended): the year-range selector returns exactly those paintings
whose `yearOfWork` is truthy (present and non-falsy — e.g. not the number 0)
and satisfies `min ≤ parseInt(yearOfWork) ≤ max` with both endpoints
included; a painting with yearOfWork "1990" is included for min=max=1990. -/
theorem claim_c4 :
    (∀ mnS mxS ps res, paintingsByYear mnS mxS (.arr ps) = .ok (.arr res) →
      res = ps.filter (yearCodeCond (jsParseInt mnS) (jsParseInt mxS)))
    ∧ paintingsByYear "1990" "1990" (.arr [p1990]) = .ok (.arr [p1990]) := by
  constructor
  · intro mnS mxS ps res h
    rw [paintingsByYear_unfold] at h
    cases hf : filterE (yearMatchE (jsParseInt mnS) (jsParseInt mxS)) ps with
    | error e => rw [hf] at h; simp at h
    | ok r =>
      rw [hf] at h
      simp only [Except.ok.injEq, JVal.arr.injEq] at h
      rw [← h]
      exact filterE_ok_eq _ _ (yearMatchE_agree _ _) ps r hf
  · rfl

/-- C4 (witness): the inclusive-endpoint example evaluated through the
amended characterization. -/
theorem claim_c4_witness :
    [p1990] = [p1990].filter (yearCodeCond (jsParseInt "1990") (jsParseInt "1990")) :=
  claim_c4.1 "1990" "1990" [p1990] [p1990] rfl

/-- C5: the color selector returns exactly those paintings some of whose
dominant-color entries match after trimming and case folding; the entry
`{name: "  Dark Red  "}` matches the query "dark red"; an entry with no
`name` field contributes the empty string and never matches a nonempty
query. -/
theorem claim_c5 :
    (∀ q ps res, paintingsByColor q (.arr ps) = .ok (.arr res) →
      res = ps.filter (colorSpecCond q))
    ∧ paintingsByColor "dark red" (.arr [pDarkRed]) = .ok (.arr [pDarkRed])
    ∧ (∀ q c, q ≠ "" → c ≠ JVal.null → c ≠ JVal.undefined → getField c "name" = .undefined →
        dominantColorMatchE (strToLower q) c = .ok false) := by
  refine ⟨?_, rfl, ?_⟩
  · intro q ps res h
    rw [paintingsByColor_unfold] at h
    cases hf : filterE (colorMatchE (strToLower q)) ps with
    | error e => rw [hf] at h; simp at h
    | ok r =>
      rw [hf] at h
      simp only [Except.ok.injEq, JVal.arr.injEq] at h
      rw [← h]
      exact filterE_ok_eq _ _ (colorMatchE_agree q) ps r hf
  · intro q c hq hn hu hname
    unfold dominantColorMatchE
    rw [getFieldE_ok' c _ hn hu, hname]
    simp only []
    rw [strIncludes_empty_left (strToLower_ne_empty hq)]
    rfl

/-- C5 (witness): the Dark Red example evaluated through the
characterization, and a nameless entry rejecting the query "navy". -/
theorem claim_c5_witness :
    [pDarkRed] = [pDarkRed].filter (colorSpecCond "dark red")
      ∧ dominantColorMatchE (strToLower "navy") (.obj [("hex", .str "#000080")])
          = .ok false :=
  ⟨claim_c5.1 "dark red" [pDarkRed] [pDarkRed] rfl,
   claim_c5.2.2 "navy" (.obj [("hex", .str "#000080")])
     (by decide) (fun h => JVal.noConfusion h) (fun h => JVal.noConfusion h) rfl⟩

/-- C6: the country selectors depend on the parameter only through its
lowercased form, so two parameters differing only in letter case (equal
after lowercasing) yield identical results on every dataset, for artists
(Nationality) and galleries (GalleryCountry) alike. -/
theorem claim_c6 (c1 c2 : String) (h : strToLower c1 = strToLower c2) :
    (∀ d, artistsByCountry c1 d = artistsByCountry c2 d)
      ∧ (∀ d, galleriesByCountry c1 d = galleriesByCountry c2 d) := by
  constructor <;> intro d <;> cases d <;>
    simp [artistsByCountry, galleriesByCountry, h]

/-- C6 (witness): "FRANCE" and "france" give the same results on concrete
artist and gallery datasets. -/
theorem claim_c6_witness :
    strToLower "FRANCE" = strToLower "france"
      ∧ artistsByCountry "FRANCE" sampleArtists = artistsByCountry "france" sampleArtists
      ∧ galleriesByCountry "FRANCE" sampleGalleries
          = galleriesByCountry "france" sampleGalleries :=
  ⟨rfl,
   (claim_c6 "FRANCE" "france" rfl).1 sampleArtists,
   (claim_c6 "FRANCE" "france" rfl).2 sampleGalleries⟩

/-- C7: the painting-by-id selector converts the parameter with `Number`,
matches records by strict numeric equality on `paintingID`, and returns the
first match in dataset order as a single record; with no match it returns
`undefined` and the request is answered 404. -/
theorem claim_c7 (pid : String) (ps : List JVal) (r : JVal) (url : String)
    (h : paintingById pid (.arr ps) = .ok r) :
    r = (match ps.find? (fun p => jsStrictEqNum (getField p "paintingID") (jsToNumber pid)) with
         | some x => x
         | none => .undefined)
    ∧ (ps.find? (fun p => jsStrictEqNum (getField p "paintingID") (jsToNumber pid)) = none →
        handleApiRequest (.ok (.arr ps)) (paintingById pid) url = ⟨404, notFoundBody url⟩) := by
  have hchar := findE_ok_eq _ _ (paintingIdMatchE_agree (jsToNumber pid)) ps r h
  refine ⟨hchar, ?_⟩
  intro hnone
  rw [hnone] at hchar
  have hsel : paintingById pid (.arr ps) = .ok .undefined := by rw [h, hchar]
  rw [handle_sel_ok _ _ _ _ hsel]
  rfl

/-- C7 (witness): id 2 finds the second record (first match in order), and
id 99 matches nothing and yields 404. -/
theorem claim_c7_witness :
    (pSunflowers =
      (match [pDarkRed, pSunflowers].find?
          (fun p => jsStrictEqNum (getField p "paintingID") (jsToNumber "2")) with
       | some x => x
       | none => .undefined))
    ∧ handleApiRequest (.ok (.arr [pDarkRed, pSunflowers])) (paintingById "99")
        "/api/painting/99" = ⟨404, notFoundBody "/api/painting/99"⟩ :=
  ⟨(claim_c7 "2" [pDarkRed, pSunflowers] pSunflowers "/api/painting/2" rfl).1,
   (claim_c7 "99" [pDarkRed, pSunflowers] .undefined "/api/painting/99" rfl).2 rfl⟩

/-- C8: for every (nonempty, as every route parameter is) query text, the
title selector returns exactly those paintings whose title is present and
contains the query as a case-insensitive substring; "sun" matches a
painting titled "Sunflowers". -/
theorem claim_c8 :
    (∀ text ps res, text ≠ "" → paintingsByTitle text (.arr ps) = .ok (.arr res) →
      res = ps.filter (titleSpecCond text))
    ∧ paintingsByTitle "sun" (.arr [pSunflowers]) = .ok (.arr [pSunflowers]) := by
  constructor
  · intro text ps res hne h
    rw [paintingsByTitle_unfold] at h
    cases hf : filterE (titleMatchE (strToLower text)) ps with
    | error e => rw [hf] at h; simp at h
    | ok r =>
      rw [hf] at h
      simp only [Except.ok.injEq, JVal.arr.injEq] at h
      rw [← h]
      exact filterE_ok_eq _ _ (titleMatchE_agree text hne) ps r hf
  · rfl

/-- C8 (witness): the "sun"/"Sunflowers" example evaluated through the
characterization. -/
theorem claim_c8_witness :
    [pSunflowers] = [pSunflowers].filter (titleSpecCond "sun") :=
  claim_c8.1 "sun" [pSunflowers] [pSunflowers] (by decide) rfl

/-- C9: the artists- and galleries-by-country selectors perform no
per-record presence check, so one record with a missing/null `Nationality`
(resp. `GalleryCountry`) makes the selector throw while filtering and the
whole request is answered 500 — regardless of any other records present. -/
theorem claim_c9 :
    (∀ c ps url a, a ∈ ps →
      (getField a "Nationality" = .undefined ∨ getField a "Nationality" = .null) →
      handleApiRequest (.ok (.arr ps)) (artistsByCountry c) url
        = ⟨500, "Internal Server Error"⟩)
    ∧ (∀ c ps url g, g ∈ ps →
      (getField g "GalleryCountry" = .undefined ∨ getField g "GalleryCountry" = .null) →
      handleApiRequest (.ok (.arr ps)) (galleriesByCountry c) url
        = ⟨500, "Internal Server Error"⟩) := by
  constructor
  · intro c ps url a ha hbad
    rcases artistNationalityMatchE_error (strToLower c) a hbad with ⟨e, he⟩
    rcases filterE_error_of_mem _ a e he ps ha with ⟨e', he'⟩
    have hsel : artistsByCountry c (.arr ps) = .error e' := by
      rw [artistsByCountry_unfold, he']
    exact handle_sel_error _ _ _ _ hsel
  · intro c ps url g hg hbad
    rcases galleryCountryMatchE_error (strToLower c) g hbad with ⟨e, he⟩
    rcases filterE_error_of_mem _ g e he ps hg with ⟨e', he'⟩
    have hsel : galleriesByCountry c (.arr ps) = .error e' := by
      rw [galleriesByCountry_unfold, he']
    exact handle_sel_error _ _ _ _ hsel

/-- C9 (witness): one artist record without `Nationality` poisons a request
even though another record matches the requested country. -/
theorem claim_c9_witness :
    handleApiRequest
      (.ok (.arr [.obj [("Nationality", .str "France")], .obj [("Name", .str "X")]]))
      (artistsByCountry "france") "/api/artists/france"
      = ⟨500, "Internal Server Error"⟩ :=
  claim_c9.1 "france"
    [.obj [("Nationality", .str "France")], .obj [("Name", .str "X")]]
    "/api/artists/france" (.obj [("Name", .str "X")])
    (List.mem_cons_of_mem _ (List.mem_cons_self _ _)) (Or.inl rfl)

/-- C10: `parseInt` accepts a numeric prefix ("3abc" is 3, so the gallery,
artist and year routes can still match records), while `Number` rejects it
("3abc" is `NaN`, so the painting-by-id route always answers 404 for that
parameter on any dataset of non-null records). -/
theorem claim_c10 :
    jsParseInt "3abc" = some 3
    ∧ jsToNumber "3abc" = none
    ∧ paintingsByGallery "3abc" (.arr [pGallery3]) = .ok (.arr [pGallery3])
    ∧ paintingsByArtist "3abc" (.arr [pArtist3]) = .ok (.arr [pArtist3])
    ∧ paintingsByYear "1990abc" "1990xyz" (.arr [p1990]) = .ok (.arr [p1990])
    ∧ (∀ ps url, (∀ p ∈ ps, isNull p = false ∧ isUndefined p = false) →
        handleApiRequest (.ok (.arr ps)) (paintingById "3abc") url
          = ⟨404, notFoundBody url⟩) :=
  ⟨rfl, rfl, rfl, rfl, rfl,
   fun ps url hok => paintingById_nan_notFound "3abc" rfl ps url hok⟩

/-- C10 (witness): the painting-by-id route with "3abc" answers 404 on the
dataset where the gallery route with "3abc" matches. -/
theorem claim_c10_witness :
    handleApiRequest (.ok (.arr [pGallery3])) (paintingById "3abc")
      "/api/painting/3abc" = ⟨404, notFoundBody "/api/painting/3abc"⟩ :=
  claim_c10.2.2.2.2.2 [pGallery3] "/api/painting/3abc" (by decide)

end Assignment3
